import Mathlib

/-
Verification of the query-record / record-lifecycle bridge of the
rust-async-dnssd sample (src/service/query_record.rs, src/service/records.rs).

Shallow embedding conventions:
  * machine integers are `Nat` (u8/u16/u32 bit patterns) or `Int`
    (DNSServiceErrorType, an i32);
  * raw memory is a partial map `Nat → Option Nat` from addresses to bytes;
    a read that returns `none` models a dereference of undefined memory
    (undefined behaviour in the real code);
  * fallible operations return `Option` / `Except`;
  * the channel of the futures mpsc pair is a FIFO buffer plus a flag that
    records whether the receiver end is still alive.
-/

namespace AsyncDnssd

/-- Native DNSServiceFlags bit for kDNSServiceFlagsMoreComing (ffi module). -/
def FLAGS_MORE_COMING : Nat := 1

/-- Native DNSServiceFlags bit for kDNSServiceFlagsAdd (ffi module). -/
def FLAGS_ADD : Nat := 2

/-- Native DNSServiceFlags bit for kDNSServiceFlagsLongLivedQuery (ffi module). -/
def FLAGS_LONG_LIVED_QUERY : Nat := 256

/-- Set of QueryRecordFlag members (query_record.rs line 21): only
`LongLivedQuery` is declared. -/
structure QueryRecordFlags where
  longLivedQuery : Bool
deriving DecidableEq

/-- Modelled from the spec: the `flag_mapping!` macro expansion (the macro
definition is not under src/) decodes the known native bits, discarding
unrecognized ones. -/
def QueryRecordFlags.from_native (b : Nat) : QueryRecordFlags :=
  ⟨b &&& FLAGS_LONG_LIVED_QUERY != 0⟩

/-- Modelled from the spec: `flag_mapping!` re-encodes the known bits
losslessly to the native representation. -/
def QueryRecordFlags.to_native (f : QueryRecordFlags) : Nat :=
  if f.longLivedQuery then FLAGS_LONG_LIVED_QUERY else 0

/-- Set of QueriedRecordFlag members (query_record.rs line 46): `MoreComing`
and `Add` are declared. -/
structure QueriedRecordFlags where
  moreComing : Bool
  add : Bool
deriving DecidableEq

/-- Modelled from the spec: `flag_mapping!` decode for QueriedRecordFlags,
known bits kept, unknown native bits silently dropped. -/
def QueriedRecordFlags.from_native (b : Nat) : QueriedRecordFlags :=
  ⟨b &&& FLAGS_MORE_COMING != 0, b &&& FLAGS_ADD != 0⟩

/-- Modelled from the spec: `flag_mapping!` encode for QueriedRecordFlags. -/
def QueriedRecordFlags.to_native (f : QueriedRecordFlags) : Nat :=
  (if f.moreComing then FLAGS_MORE_COMING else 0) |||
  (if f.add then FLAGS_ADD else 0)

/-- Raw byte memory: a partial map from addresses to byte values.  `none`
means the address is not backed by valid memory. -/
def Mem : Type := Nat → Option Nat

/-- Modelled from the spec: `Interface` (interface module, not under src/), a
32-bit index where 0 means any/unspecified. -/
inductive Interface where
  | unspec : Interface
  | index (i : Nat) : Interface
deriving DecidableEq

/-- Modelled from the spec: decoding of the raw interface index. -/
def Interface.from_raw (i : Nat) : Interface :=
  if i = 0 then .unspec else .index i

/-- Modelled from the spec: re-encoding of an Interface to the raw index. -/
def Interface.into_raw : Interface → Nat
  | .unspec => 0
  | .index i => i

/-- UTF-8 continuation byte test (0x80..0xBF). -/
def isContByte (b : Nat) : Bool := 128 ≤ b && b ≤ 191

/-- UTF-8 validity of a byte sequence (RFC 3629 table), used by the C-string
decoding helper. -/
def utf8Valid : List Nat → Bool
  | [] => true
  | b :: rest =>
    if b ≤ 127 then utf8Valid rest
    else if 194 ≤ b && b ≤ 223 then
      match rest with
      | c :: r => isContByte c && utf8Valid r
      | [] => false
    else if b = 224 then
      match rest with
      | c1 :: c2 :: r => (160 ≤ c1 && c1 ≤ 191) && isContByte c2 && utf8Valid r
      | _ => false
    else if (225 ≤ b && b ≤ 236) || b = 238 || b = 239 then
      match rest with
      | c1 :: c2 :: r => isContByte c1 && isContByte c2 && utf8Valid r
      | _ => false
    else if b = 237 then
      match rest with
      | c1 :: c2 :: r => (128 ≤ c1 && c1 ≤ 159) && isContByte c2 && utf8Valid r
      | _ => false
    else if b = 240 then
      match rest with
      | c1 :: c2 :: c3 :: r =>
        (144 ≤ c1 && c1 ≤ 191) && isContByte c2 && isContByte c3 && utf8Valid r
      | _ => false
    else if 241 ≤ b && b ≤ 243 then
      match rest with
      | c1 :: c2 :: c3 :: r =>
        isContByte c1 && isContByte c2 && isContByte c3 && utf8Valid r
      | _ => false
    else if b = 244 then
      match rest with
      | c1 :: c2 :: c3 :: r =>
        (128 ≤ c1 && c1 ≤ 143) && isContByte c2 && isContByte c3 && utf8Valid r
      | _ => false
    else false

/-- Scan the bytes of a NUL-terminated C string starting at `ptr`; the scanned
bytes exclude the terminator.  `none` means no terminator was found inside
`fuel` bytes or an undefined address was read (undefined behaviour in the real
code, which scans unboundedly). -/
def scanCStr (mem : Mem) (ptr : Nat) : Nat → Option (List Nat)
  | 0 => none
  | fuel + 1 =>
    match mem ptr with
    | none => none
    | some 0 => some []
    | some b => (scanCStr mem (ptr + 1) fuel).map (fun bs => b :: bs)

/-- Modelled from the spec: `cstr::from_cstr` (cstr module, not under src/)
decodes the C string at `ptr`; it fails with a decoding error when the bytes
are not valid UTF-8.  The decoded name is kept as its UTF-8 byte sequence. -/
def from_cstr (mem : Mem) (ptr : Nat) (fuel : Nat) : Option (Except Unit (List Nat)) :=
  (scanCStr mem ptr fuel).map
    (fun bs => if utf8Valid bs then .ok bs else .error ())

/-- slice::from_raw_parts followed by `.into()`: read `len` bytes starting at
`ptr`.  Reading zero bytes never touches memory. -/
def from_raw_parts (mem : Mem) (ptr : Nat) : Nat → Option (List Nat)
  | 0 => some []
  | len + 1 =>
    match mem ptr, from_raw_parts mem (ptr + 1) len with
    | some b, some bs => some (b :: bs)
    | _, _ => none

/-- Typed error taxonomy for items pushed onto the channel:
`serviceError` carries the native non-success error code (ReplyError in the
spec's taxonomy), `decodingError` a malformed C-string name. -/
inductive CbErr where
  | serviceError (code : Int) : CbErr
  | decodingError : CbErr
deriving DecidableEq

/-- Modelled from the spec: `Error::from(error_code)` (error module, not under
src/) maps the native error code 0 (kDNSServiceErr_NoError) to success and any
other code to the typed error carrying that code. -/
def errorFrom (code : Int) : Except Int Unit :=
  if code = 0 then .ok () else .error code

/-- Query result (query_record.rs line 97).  The fullname is kept as its UTF-8
byte sequence. -/
structure QueryRecordResult where
  flags : QueriedRecordFlags
  interface : Interface
  fullname : List Nat
  rr_type : Nat
  rr_class : Nat
  rdata : List Nat
  ttl : Nat
deriving DecidableEq

/-- An item of the result stream: `io::Result<QueryRecordResult>`. -/
def Item : Type := Except CbErr QueryRecordResult

instance Item.instDecEq : DecidableEq Item := fun a b =>
  match a, b with
  | .ok x, .ok y =>
    if h : x = y then .isTrue (h ▸ rfl)
    else .isFalse (fun hc => h (Except.ok.inj hc))
  | .error x, .error y =>
    if h : x = y then .isTrue (h ▸ rfl)
    else .isFalse (fun hc => h (Except.error.inj hc))
  | .ok _, .error _ => .isFalse (fun hc => Except.noConfusion hc)
  | .error _, .ok _ => .isFalse (fun hc => Except.noConfusion hc)

/-- The futures mpsc unbounded channel, seen from the sender side:
`receiverAlive` records whether the receiver end still exists, `buffer` the
FIFO queue of items sent but not yet received. -/
structure Channel where
  receiverAlive : Bool
  buffer : List Item
deriving DecidableEq

/-- `UnboundedSender::send`: appends to the FIFO buffer, fails (returns the
`SendError`) exactly when the receiver end has been dropped. -/
def Channel.send (c : Channel) (x : Item) : Except Unit Channel :=
  if c.receiverAlive then .ok { c with buffer := c.buffer ++ [x] } else .error ()

/-- Outcome of one invocation of the extern "C" callback: it either returns
normally with the updated channel, panics (starts unwinding across the
foreign-call boundary), or hits undefined behaviour reading raw memory. -/
inductive CbOutcome where
  | ok (chan : Channel) : CbOutcome
  | panicked : CbOutcome
  | ub : CbOutcome
deriving DecidableEq

/-- Arguments of one native callback invocation
(query_record.rs lines 114 to 125; `sd_ref` is unused by the adapter). -/
structure CallbackArgs where
  flags : Nat
  interfaceIndex : Nat
  errorCode : Int
  fullnamePtr : Nat
  rrType : Nat
  rrClass : Nat
  rdLen : Nat
  rdataPtr : Nat
  ttl : Nat
deriving DecidableEq

/-- The decoding pipeline of `query_record_callback`
(query_record.rs lines 130 to 143): map the error code; on success decode the
C-string name, then read `rd_len` bytes at `rdata`, then assemble the typed
result.  `none` models undefined behaviour (a raw read of undefined memory);
`fuel` bounds the C-string scan of the shallow embedding. -/
def decodeItem (mem : Mem) (fuel : Nat) (a : CallbackArgs) : Option Item :=
  match errorFrom a.errorCode with
  | .error e => some (.error (.serviceError e))
  | .ok () =>
    match from_cstr mem a.fullnamePtr fuel with
    | none => none
    | some (.error ()) => some (.error .decodingError)
    | some (.ok nameBytes) =>
      match from_raw_parts mem a.rdataPtr a.rdLen with
      | none => none
      | some bytes =>
        some (.ok
          { flags := QueriedRecordFlags.from_native a.flags
            interface := Interface.from_raw a.interfaceIndex
            fullname := nameBytes
            rr_type := a.rrType
            rr_class := a.rrClass
            rdata := bytes
            ttl := a.ttl })

/-- `query_record_callback` (query_record.rs lines 114 to 146): decode the
arguments into `data`, then `sender.send(data).unwrap()`.  The `.unwrap()`
makes a failed send (receiver already dropped) a panic that unwinds across
the extern "C" boundary. -/
def query_record_callback (mem : Mem) (fuel : Nat) (a : CallbackArgs)
    (c : Channel) : CbOutcome :=
  match decodeItem mem fuel a with
  | none => .ub
  | some data =>
    match c.send data with
    | .ok c' => .ok c'
    | .error _ => .panicked

/-- Run a sequence of callback invocations against the channel, stopping at
the first panic or undefined behaviour. -/
def runCallbacks (mem : Mem) (fuel : Nat) :
    List CallbackArgs → Channel → CbOutcome
  | [], c => .ok c
  | a :: as, c =>
    match query_record_callback mem fuel a c with
    | .ok c' => runCallbacks mem fuel as c'
    | .panicked => .panicked
    | .ub => .ub

/-- Decode a whole sequence of callback invocations; `none` when any of them
hits undefined behaviour. -/
def decodeAll (mem : Mem) (fuel : Nat) : List CallbackArgs → Option (List Item)
  | [] => some []
  | a :: as =>
    match decodeItem mem fuel a, decodeAll mem fuel as with
    | some i, some is => some (i :: is)
    | _, _ => none

/-- Modelled from the spec: `QueryRecord::poll` (query_record.rs line 82)
delegates to `ServiceStream::poll` (stream module, not under src/), which pops
the oldest buffered item of the single-producer single-consumer channel;
`none` models NotReady. -/
def Channel.poll (c : Channel) : Option Item × Channel :=
  match c.buffer with
  | [] => (none, c)
  | x :: rest => (some x, { c with buffer := rest })

/-- Poll the stream `n` times, collecting the yielded items in order. -/
def pollList (c : Channel) : Nat → List (Option Item)
  | 0 => []
  | n + 1 =>
    match c.poll with
    | (x, c') => x :: pollList c' n

/-- Errors of the `query_record` entry point: C-string encoding of the name
failed (interior NUL), the native start call returned a non-success code, or
the evented reactor registration (external collaborator) failed. -/
inductive QError where
  | nulError : QError
  | serviceError (code : Int) : QError
  | eventedError : QError
deriving DecidableEq

/-- `query_record` (query_record.rs lines 151 to 175).  `native` stands for
`raw::DNSService::query_record` applied to the converted arguments: the native
flag bits, the raw interface index, the NUL-terminated name and the type and
class codes (its `Except` value is the native start call's result);
`ev` stands for the evented reactor registration, an external collaborator.
The second component of the returned pair records whether the native start
call was reached (and with it whether a sender pointer was transferred across
the foreign boundary); on success the fresh channel backing the returned
`QueryRecord` stream is produced. -/
def query_record (flags : QueryRecordFlags) (iface : Interface)
    (fullname : List Nat) (rr_type rr_class : Nat)
    (native : Nat → Nat → List Nat → Nat → Nat → Except Int Unit)
    (ev : Except Unit Unit) : Except QError Channel × Bool :=
  if fullname.contains 0 then (.error .nulError, false)
  else
    match native (QueryRecordFlags.to_native flags) (Interface.into_raw iface)
        (fullname ++ [0]) rr_type rr_class with
    | .error e => (.error (.serviceError e), true)
    | .ok () =>
      match ev with
      | .error () => (.error .eventedError, true)
      | .ok () => (.ok { receiverAlive := true, buffer := [] }, true)

/-- Modelled from the spec: the raw record handle (raw module, not under
src/), reduced to its update primitive; `update_record flags rdata ttl` is the
native update call's result. -/
structure DNSRecord where
  update_record : Nat → List Nat → Nat → Except Int Unit

/-- A successful record registration (records.rs line 15). -/
structure Record where
  raw : DNSRecord

/-- `Record::update_raw_record` (records.rs lines 28 to 39): delegate to the
owning raw handle's update with no flags (literal 0), propagating its error. -/
def Record.update_raw_record (r : Record) (rdata : List Nat) (ttl : Nat) :
    Except Int Unit :=
  match r.raw.update_record 0 rdata ttl with
  | .ok _ => .ok ()
  | .error e => .error e

/-- Record-lifecycle events: `keep i` consumes Record `i`
(records.rs line 44), `drop i` runs its destructor, `releaseOwner` releases
the owning Registration or Connection handle. -/
inductive Ev where
  | keep (i : Nat) : Ev
  | drop (i : Nat) : Ev
  | releaseOwner : Ev

/-- Modelled from the spec: lifecycle state of the owning raw handle (raw
module, not under src/) and its records.  `keptIds` are records whose own
release was suppressed by `keep`; `droppedIds` are records already released by
their own destructor. -/
structure Life where
  ownerReleased : Bool
  keptIds : List Nat
  droppedIds : List Nat

/-- Modelled from the spec: one lifecycle step.  `keep` marks the record kept
and releases nothing; `drop` releases the record's native resource unless it
was kept; releasing the owner releases the owner itself (and with it every
record's native resource it still holds). -/
def Life.step (s : Life) : Ev → Life
  | .keep i => { s with keptIds := i :: s.keptIds }
  | .drop i =>
    if s.keptIds.contains i then s
    else { s with droppedIds := i :: s.droppedIds }
  | .releaseOwner => { s with ownerReleased := true }

/-- Run a sequence of lifecycle events. -/
def Life.run (s : Life) : List Ev → Life
  | [] => s
  | e :: t => (s.step e).run t

/-- Modelled from the spec: record `i`'s native resource has been released
exactly when its own (unsuppressed) destructor ran or the owning handle was
released. -/
def Life.recordReleased (s : Life) (i : Nat) : Bool :=
  s.droppedIds.contains i || s.ownerReleased

/-- Initial lifecycle state: owner alive, no record kept or dropped. -/
def Life.init : Life :=
  { ownerReleased := false, keptIds := [], droppedIds := [] }

/-- Whether a lifecycle event sequence contains a release of the owner. -/
def hasReleaseOwner : List Ev → Bool
  | [] => false
  | .releaseOwner :: _ => true
  | _ :: t => hasReleaseOwner t

/-- UTF-8 bytes of the name "example.local.". -/
def exampleName : List Nat :=
  [101, 120, 97, 109, 112, 108, 101, 46, 108, 111, 99, 97, 108, 46]

/-- Concrete memory for the test scenario: the NUL-terminated name
"example.local." at address 100, the rdata bytes 127.0.0.1 at address 200,
everything else undefined. -/
def c9mem : Mem := fun addr =>
  if 100 ≤ addr ∧ addr < 115 then (exampleName ++ [0]).get? (addr - 100)
  else if 200 ≤ addr ∧ addr < 204 then [127, 0, 0, 1].get? (addr - 200)
  else none

/-- Callback arguments of the test scenario: success error code, flags equal
to the Add bit, an A record (type 1, class IN) with rdata 127.0.0.1, ttl 120. -/
def c9args : CallbackArgs :=
  { flags := FLAGS_ADD, interfaceIndex := 0, errorCode := 0, fullnamePtr := 100,
    rrType := 1, rrClass := 1, rdLen := 4, rdataPtr := 200, ttl := 120 }

/-- The item the test scenario's callback invocation pushes. -/
def c9item : Item :=
  .ok { flags := { moreComing := false, add := true }, interface := .unspec,
        fullname := exampleName, rr_type := 1, rr_class := 1,
        rdata := [127, 0, 0, 1], ttl := 120 }

/-- Callback arguments carrying a non-success native error code
(kDNSServiceErr_Unknown = -65537). -/
def errArgs : CallbackArgs :=
  { flags := 0, interfaceIndex := 0, errorCode := -65537, fullnamePtr := 0,
    rrType := 1, rrClass := 1, rdLen := 0, rdataPtr := 0, ttl := 0 }

/-- Callback arguments with a success error code and a zero-length rdata
buffer whose data pointer targets undefined memory. -/
def zeroLenArgs : CallbackArgs :=
  { flags := 0, interfaceIndex := 0, errorCode := 0, fullnamePtr := 100,
    rrType := 16, rrClass := 1, rdLen := 0, rdataPtr := 0, ttl := 60 }

/-- C2: for every native flag bit pattern `b`, re-encoding the decoded flag
set yields `b` masked to the known bits: the QueriedRecordFlags round-trip
masks to MoreComing|Add, the QueryRecordFlags round-trip masks to
LongLivedQuery; unknown bits are silently dropped on decode. -/
theorem flags_to_native_from_native_mask (b : Nat) :
    QueriedRecordFlags.to_native (QueriedRecordFlags.from_native b) =
      b &&& (FLAGS_MORE_COMING ||| FLAGS_ADD) ∧
    QueryRecordFlags.to_native (QueryRecordFlags.from_native b) =
      b &&& FLAGS_LONG_LIVED_QUERY := by
  constructor
  · have h3 : b &&& (FLAGS_MORE_COMING ||| FLAGS_ADD) = b % 4 := by
      have h := Nat.and_pow_two_sub_one_eq_mod b 2
      norm_num at h
      simpa [FLAGS_MORE_COMING, FLAGS_ADD] using h
    have h1 : b &&& 1 = b % 2 := Nat.and_one_is_mod b
    have h2 : b &&& 2 = (b.testBit 1).toNat * 2 := by
      have h := Nat.and_two_pow b 1
      norm_num at h
      exact h
    rw [Nat.testBit_to_div_mod] at h2
    norm_num at h2
    have hlor : (1 : Nat) ||| 2 = 3 := by decide
    rw [h3]
    rcases Nat.mod_two_eq_zero_or_one b with hb0 | hb0 <;>
      rcases Nat.mod_two_eq_zero_or_one (b / 2) with hb1 | hb1 <;>
      simp [QueriedRecordFlags.from_native, QueriedRecordFlags.to_native,
        FLAGS_MORE_COMING, FLAGS_ADD, h1, h2, hb0, hb1, hlor] <;>
      omega
  · have h2 : b &&& 256 = (b.testBit 8).toNat * 256 := by
      have h := Nat.and_two_pow b 8
      norm_num at h
      exact h
    cases ht : b.testBit 8 <;>
      simp [QueryRecordFlags.from_native, QueryRecordFlags.to_native,
        FLAGS_LONG_LIVED_QUERY, h2, ht]

/-- C7: `Record::update_raw_record` delegates to the owning raw handle's
update with a flags argument of exactly zero, passing rdata and ttl through
unchanged, returning Ok(()) exactly when the delegated call succeeds and the
delegated error otherwise. -/
theorem update_raw_record_delegates_no_flags (r : Record) (rdata : List Nat)
    (ttl : Nat) :
    r.update_raw_record rdata ttl = r.raw.update_record 0 rdata ttl := by
  unfold Record.update_raw_record
  cases h : r.raw.update_record 0 rdata ttl with
  | ok u => cases u; rfl
  | error e => rfl

/-- C1 (counter-evidence): invoked after the channel's receiver end has been
dropped, the callback does not return normally: the `.unwrap()` on the failed
send (query_record.rs line 145) panics, unwinding across the extern "C"
boundary. -/
theorem query_record_callback_panics_on_dropped_receiver :
    query_record_callback c9mem 32 c9args
      { receiverAlive := false, buffer := [] } = .panicked := by decide

/-- C9: a single successful callback invocation for "example.local.", type 1,
class 1, rdata 127.0.0.1, ttl 120, native flags equal to the Add bit, makes
the stream yield exactly one Ok item with exactly those fields and a flag set
containing Add but not MoreComing. -/
theorem query_record_scenario_example_local :
    query_record_callback c9mem 32 c9args
      { receiverAlive := true, buffer := [] } =
      .ok { receiverAlive := true, buffer := [c9item] } ∧
    pollList { receiverAlive := true, buffer := [c9item] } 1 = [some c9item] ∧
    c9item = Except.ok
      { flags := { moreComing := false, add := true }, interface := .unspec,
        fullname := exampleName, rr_type := 1, rr_class := 1,
        rdata := [127, 0, 0, 1], ttl := 120 } := by decide

/-- C3: a callback invocation carrying a non-success native error code pushes
the mapped typed error onto the channel; the decoding steps are skipped (the
outcome does not depend on memory at all), and the stream keeps accepting and
delivering further items afterwards. -/
theorem callback_error_item_stream_continues
    (mem : Mem) (fuel : Nat) (a : CallbackArgs) (c : Channel)
    (halive : c.receiverAlive = true) (herr : a.errorCode ≠ 0) :
    query_record_callback mem fuel a c =
      .ok { receiverAlive := true,
            buffer := c.buffer ++ [.error (.serviceError a.errorCode)] } ∧
    (∀ (mem' : Mem) (fuel' : Nat),
      query_record_callback mem' fuel' a c =
        query_record_callback mem fuel a c) ∧
    (∀ (mem' : Mem) (fuel' : Nat) (a' : CallbackArgs) (i' : Item),
      decodeItem mem' fuel' a' = some i' →
      query_record_callback mem' fuel' a'
        { receiverAlive := true,
          buffer := c.buffer ++ [.error (.serviceError a.errorCode)] } =
      .ok { receiverAlive := true,
            buffer := c.buffer ++ [.error (.serviceError a.errorCode)] ++ [i'] }) := by
  have hd : ∀ (m : Mem) (f : Nat),
      decodeItem m f a = some (.error (.serviceError a.errorCode)) := by
    intro m f
    simp [decodeItem, errorFrom, herr]
  refine ⟨?_, ?_, ?_⟩
  · simp [query_record_callback, hd, Channel.send, halive]
  · intro mem' fuel'
    rw [query_record_callback, query_record_callback, hd, hd]
  · intro mem' fuel' a' i' h
    simp [query_record_callback, h, Channel.send]

/-- C3 witness: the error-code invocation at a live channel. -/
theorem callback_error_item_stream_continues_witness :
    ({ receiverAlive := true, buffer := [] } : Channel).receiverAlive = true ∧
    errArgs.errorCode ≠ 0 ∧
    query_record_callback c9mem 32 errArgs
      { receiverAlive := true, buffer := [] } =
      .ok { receiverAlive := true,
            buffer := [.error (.serviceError errArgs.errorCode)] } :=
  ⟨rfl, by decide,
    (callback_error_item_stream_continues c9mem 32 errArgs
      { receiverAlive := true, buffer := [] } rfl (by decide)).1⟩

/-- C4: a callback invocation with a success error code and rd_len = 0
constructs a result whose rdata field is the empty byte sequence, and reading
zero bytes succeeds in every memory, in particular one where the data pointer
targets nothing valid: the pointer is never dereferenced. -/
theorem callback_zero_rdlen_empty_rdata
    (mem : Mem) (fuel : Nat) (a : CallbackArgs)
    (hsucc : a.errorCode = 0) (hlen : a.rdLen = 0) :
    (∀ r : QueryRecordResult,
      decodeItem mem fuel a = some (.ok r) → r.rdata = []) ∧
    (∀ mem' : Mem, from_raw_parts mem' a.rdataPtr a.rdLen = some []) := by
  constructor
  · intro r hr
    cases hfc : from_cstr mem a.fullnamePtr fuel with
    | none => simp [decodeItem, errorFrom, hsucc, hfc] at hr
    | some fc =>
      cases fc with
      | error e =>
        cases e
        simp [decodeItem, errorFrom, hsucc, hfc] at hr
      | ok name =>
        simp [decodeItem, errorFrom, hsucc, hfc, hlen, from_raw_parts] at hr
        injection hr with h
        subst h
        rfl
  · intro mem'
    rw [hlen]
    rfl

/-- C4 witness: success invocation with rd_len = 0 and an rdata pointer into
undefined memory. -/
theorem callback_zero_rdlen_empty_rdata_witness :
    zeroLenArgs.errorCode = 0 ∧ zeroLenArgs.rdLen = 0 ∧
    ((∀ r : QueryRecordResult,
        decodeItem c9mem 32 zeroLenArgs = some (.ok r) → r.rdata = []) ∧
     (∀ mem' : Mem,
        from_raw_parts mem' zeroLenArgs.rdataPtr zeroLenArgs.rdLen = some [])) :=
  ⟨rfl, rfl, callback_zero_rdlen_empty_rdata c9mem 32 zeroLenArgs rfl rfl⟩

/-- Decoding a sequence of invocations yields one item per invocation. -/
theorem decodeAll_length (mem : Mem) (fuel : Nat) :
    ∀ (as : List CallbackArgs) (items : List Item),
      decodeAll mem fuel as = some items → items.length = as.length := by
  intro as
  induction as with
  | nil =>
    intro items h
    simp [decodeAll] at h
    simp [← h]
  | cons a as ih =>
    intro items h
    unfold decodeAll at h
    cases hd : decodeItem mem fuel a with
    | none => rw [hd] at h; simp at h
    | some i =>
      rw [hd] at h
      cases hds : decodeAll mem fuel as with
      | none => rw [hds] at h; simp at h
      | some is =>
        rw [hds] at h
        simp at h
        subst h
        simp [ih is hds]

/-- Running decodable success callbacks at a live channel appends the decoded
items, in invocation order, to the buffer. -/
theorem runCallbacks_append (mem : Mem) (fuel : Nat) :
    ∀ (as : List CallbackArgs) (items : List Item) (buf : List Item),
      decodeAll mem fuel as = some items →
      runCallbacks mem fuel as { receiverAlive := true, buffer := buf } =
        .ok { receiverAlive := true, buffer := buf ++ items } := by
  intro as
  induction as with
  | nil =>
    intro items buf h
    simp [decodeAll] at h
    subst h
    simp [runCallbacks]
  | cons a as ih =>
    intro items buf h
    unfold decodeAll at h
    cases hd : decodeItem mem fuel a with
    | none => rw [hd] at h; simp at h
    | some i =>
      rw [hd] at h
      cases hds : decodeAll mem fuel as with
      | none => rw [hds] at h; simp at h
      | some is =>
        rw [hds] at h
        simp at h
        subst h
        simp only [runCallbacks, query_record_callback, hd, Channel.send,
          if_pos, List.append_assoc, List.singleton_append]
        rw [ih is (buf ++ [i]) hds]
        simp

/-- Polling a channel buffering `items` once per item yields every item, in
FIFO order. -/
theorem pollList_buffer (alive : Bool) :
    ∀ items : List Item,
      pollList { receiverAlive := alive, buffer := items } items.length =
        items.map some := by
  intro items
  induction items with
  | nil => simp [pollList]
  | cons x rest ih => simp [pollList, Channel.poll, ih]

/-- C5: for every sequence of N callback invocations with success error codes
(each decodable, so none hits undefined behaviour), run against the fresh
stream's channel, the stream yields exactly N items in invocation order: no
reordering, no duplication, no drops. -/
theorem callback_sequence_fifo_delivery
    (mem : Mem) (fuel : Nat) (as : List CallbackArgs) (items : List Item)
    (hsucc : ∀ a ∈ as, a.errorCode = 0)
    (hdec : decodeAll mem fuel as = some items) :
    runCallbacks mem fuel as { receiverAlive := true, buffer := [] } =
      .ok { receiverAlive := true, buffer := items } ∧
    items.length = as.length ∧
    pollList { receiverAlive := true, buffer := items } items.length =
      items.map some := by
  refine ⟨?_, decodeAll_length mem fuel as items hdec, pollList_buffer true items⟩
  have h := runCallbacks_append mem fuel as items [] hdec
  simpa using h

/-- C5 witness: two successful invocations delivered in order. -/
theorem callback_sequence_fifo_delivery_witness :
    (∀ a ∈ [c9args, c9args], a.errorCode = 0) ∧
    decodeAll c9mem 32 [c9args, c9args] = some [c9item, c9item] ∧
    (runCallbacks c9mem 32 [c9args, c9args]
        { receiverAlive := true, buffer := [] } =
      .ok { receiverAlive := true, buffer := [c9item, c9item] } ∧
    ([c9item, c9item] : List Item).length = [c9args, c9args].length ∧
    pollList { receiverAlive := true, buffer := [c9item, c9item] }
        ([c9item, c9item] : List Item).length =
      ([c9item, c9item] : List Item).map some) :=
  ⟨by decide, by decide,
    callback_sequence_fifo_delivery c9mem 32 [c9args, c9args] [c9item, c9item]
      (by decide) (by decide)⟩

/-- C6: given an encodable name (no interior NUL) and a successful reactor
registration, `query_record` returns Err carrying the typed native error as
soon as the native start call returns a non-success code, and Ok with the
fresh QueryRecord stream on native success. -/
theorem query_record_native_start_result
    (flags : QueryRecordFlags) (iface : Interface) (fullname : List Nat)
    (rr_type rr_class : Nat)
    (native : Nat → Nat → List Nat → Nat → Nat → Except Int Unit)
    (hnul : fullname.contains 0 = false) :
    query_record flags iface fullname rr_type rr_class native (.ok ()) =
      match native (QueryRecordFlags.to_native flags) (Interface.into_raw iface)
          (fullname ++ [0]) rr_type rr_class with
      | .error e => (.error (.serviceError e), true)
      | .ok () => (.ok { receiverAlive := true, buffer := [] }, true) := by
  unfold query_record
  rw [hnul]
  rw [if_neg (by simp : ¬ (false = true))]

/-- C6 witness: a native start failure surfaces as the typed error. -/
theorem query_record_native_start_result_witness :
    ([97] : List Nat).contains 0 = false ∧
    query_record { longLivedQuery := false } .unspec [97] 1 1
        (fun _ _ _ _ _ => .error (-65537)) (.ok ()) =
      (.error (.serviceError (-65537)), true) :=
  ⟨rfl,
    (query_record_native_start_result { longLivedQuery := false } .unspec
      [97] 1 1 (fun _ _ _ _ _ => .error (-65537)) rfl).trans rfl⟩

/-- C10: a fullname containing an interior NUL byte makes `query_record`
return Err before anything crosses the foreign boundary: for every native
start behaviour and reactor outcome the result is the encoding error and the
native start call was never reached (no handle, no callback registration, no
sender pointer transfer). -/
theorem query_record_interior_nul_no_native_start
    (flags : QueryRecordFlags) (iface : Interface) (fullname : List Nat)
    (rr_type rr_class : Nat)
    (native : Nat → Nat → List Nat → Nat → Nat → Except Int Unit)
    (ev : Except Unit Unit)
    (hnul : fullname.contains 0 = true) :
    query_record flags iface fullname rr_type rr_class native ev =
      (.error .nulError, false) := by
  unfold query_record
  rw [hnul]
  simp

/-- C10 witness: the name bytes 101, 0, 97 hold an interior NUL. -/
theorem query_record_interior_nul_no_native_start_witness :
    ([101, 0, 97] : List Nat).contains 0 = true ∧
    query_record { longLivedQuery := false } .unspec [101, 0, 97] 1 1
        (fun _ _ _ _ _ => .ok ()) (.ok ()) = (.error .nulError, false) :=
  ⟨rfl,
    query_record_interior_nul_no_native_start { longLivedQuery := false }
      .unspec [101, 0, 97] 1 1 (fun _ _ _ _ _ => .ok ()) (.ok ()) rfl⟩

/-- After any further events, a record kept in state `s` stays kept, its own
native release never runs, and the owner's release flag accumulates exactly
the releaseOwner events. -/
theorem Life.run_kept (i : Nat) :
    ∀ (t : List Ev) (s : Life), i ∈ s.keptIds →
      (i ∈ (s.run t).keptIds ∧
       ((i ∈ (s.run t).droppedIds) ↔ i ∈ s.droppedIds) ∧
       ((s.run t).ownerReleased = (s.ownerReleased || hasReleaseOwner t))) := by
  intro t
  induction t with
  | nil =>
    intro s hk
    simp [Life.run, hasReleaseOwner, hk]
  | cons e t ih =>
    intro s hk
    cases e with
    | keep j =>
      have hk' : i ∈ (s.step (.keep j)).keptIds := by
        simp [Life.step]
        exact Or.inr hk
      have h := ih (s.step (.keep j)) hk'
      simp [Life.step] at h
      simpa [Life.run, Life.step, hasReleaseOwner] using h
    | drop j =>
      by_cases hj : j ∈ s.keptIds
      · have h := ih s hk
        have hstep : s.step (.drop j) = s := by simp [Life.step, hj]
        have hrun : s.run (Ev.drop j :: t) = (s.step (.drop j)).run t := rfl
        rw [hrun, hstep]
        simpa [hasReleaseOwner] using h
      · have hij : i ≠ j := fun he => hj (he ▸ hk)
        have hk' : i ∈ (s.step (.drop j)).keptIds := by
          simp [Life.step, hj, hk]
        have h := ih (s.step (.drop j)) hk'
        simp [Life.step, hj] at h
        have hrun : s.run (Ev.drop j :: t) = (s.step (.drop j)).run t := rfl
        rw [hrun]
        simp [Life.step, hj, hasReleaseOwner]
        refine ⟨h.1, ?_, h.2.2⟩
        rw [h.2.1]
        simp [hij]
    | releaseOwner =>
      have hk' : i ∈ (s.step .releaseOwner).keptIds := by
        simpa [Life.step] using hk
      have h := ih (s.step .releaseOwner) hk'
      simp [Life.step] at h
      simpa [Life.run, Life.step, hasReleaseOwner] using h

/-- C8: `keep` consumes the Record and suppresses the release its destructor
would perform, without touching the owning handle's own release: starting
fresh, after `keep i` followed by any events `t`, record `i`'s native
resource is released exactly when the owning handle was released during `t`;
moreover a `keep` step changes no release state at all and a `drop` of a kept
record is a no-op. -/
theorem keep_suppresses_release_until_owner_release (t : List Ev) (i : Nat) :
    ((Life.init.run (Ev.keep i :: t)).recordReleased i = hasReleaseOwner t) ∧
    (∀ s : Life, (s.step (Ev.keep i)).ownerReleased = s.ownerReleased ∧
      (s.step (Ev.keep i)).droppedIds = s.droppedIds) ∧
    (∀ s : Life, i ∈ s.keptIds → s.step (Ev.drop i) = s) := by
  refine ⟨?_, fun s => ⟨rfl, rfl⟩, fun s h => by simp [Life.step, h]⟩
  have hk : i ∈ (Life.init.step (Ev.keep i)).keptIds := by
    simp [Life.init, Life.step]
  have h := Life.run_kept i t (Life.init.step (Ev.keep i)) hk
  have hrun : Life.init.run (Ev.keep i :: t) = (Life.init.step (Ev.keep i)).run t := rfl
  rw [hrun]
  have hnd : i ∉ ((Life.init.step (Ev.keep i)).run t).droppedIds := by
    rw [h.2.1]
    simp [Life.init, Life.step]
  have how : ((Life.init.step (Ev.keep i)).run t).ownerReleased =
      hasReleaseOwner t := by
    rw [h.2.2]
    simp [Life.init, Life.step]
  simp [Life.recordReleased, hnd, how]

/-- C8 witness: keep record 1, then a drop of it and an owner release. -/
theorem keep_suppresses_release_until_owner_release_witness :
    ((Life.init.run (Ev.keep 1 :: [Ev.drop 1, Ev.releaseOwner])).recordReleased 1 =
      hasReleaseOwner [Ev.drop 1, Ev.releaseOwner]) ∧
    (∀ s : Life, (s.step (Ev.keep 1)).ownerReleased = s.ownerReleased ∧
      (s.step (Ev.keep 1)).droppedIds = s.droppedIds) ∧
    (∀ s : Life, 1 ∈ s.keptIds → s.step (Ev.drop 1) = s) :=
  keep_suppresses_release_until_owner_release [Ev.drop 1, Ev.releaseOwner] 1

end AsyncDnssd
